import Mathlib

/-!
Shallow embedding of the FastApi-LangChain RAG backend
(`src/main.py`, `src/db_utils.py`, `src/chroma_utils.py`,
`src/langchain_utils.py`, `src/pydantic_models.py`).

The relational store (SQLite), the Chroma vector store and the external
LLM are modelled as explicit state; external collaborators that can fail
(document loaders, the text splitter, `vectorstore.add_documents`,
`vectorstore.get`, `vectorstore._collection.delete`, the RAG chain
invocation, file IO) are modelled by an environment record whose fields
give their outcome, so that every exception path of the Python code
appears as an explicit branch.

Python exceptions are modelled as `Except` results or boolean outcome
flags; an endpoint's `HTTPException` responses are modelled as explicit
result constructors (`badRequest` for 400, `serverError` for 500).
-/

/-- A chat message as produced by `get_chat_history` in `db_utils.py`:
a dict with a `role` field (`"human"` or `"ai"`) and a `content` field. -/
structure Message where
  role : String
  content : String
deriving DecidableEq, Repr

/-- A row of the `application_logs` table (`db_utils.py`,
`create_application_logs`).  `created_at` is the insertion timestamp;
the store assigns it monotonically, so the table list below is kept in
`created_at` order and `ORDER BY created_at` is the identity. -/
structure ChatLog where
  session_id : String
  user_query : String
  gpt_response : String
  model : String
  created_at : Nat
deriving DecidableEq, Repr

/-- A row of the `document_store` table (`db_utils.py`,
`create_document_store`): `id INTEGER PRIMARY KEY AUTOINCREMENT`,
`filename`, `upload_timestamp`. -/
structure Doc where
  id : Nat
  filename : String
  upload_timestamp : Nat
deriving DecidableEq, Repr

/-- The SQLite database state: the two tables, the AUTOINCREMENT counter
for `document_store.id` (SQLite's `lastrowid`), and a clock supplying
the `CURRENT_TIMESTAMP` defaults.  Both table lists are kept in
insertion order, which coincides with `created_at` order because the
clock is monotone. -/
structure DBState where
  logs : List ChatLog
  docs : List Doc
  next_doc_id : Nat
  time : Nat
deriving DecidableEq, Repr

/-- `insert_application_logs` (`db_utils.py` lines 46-54): appends a row
to `application_logs`. -/
def insert_application_logs (db : DBState) (session_id user_query gpt_response model : String) :
    DBState :=
  { db with
    logs := db.logs ++ [⟨session_id, user_query, gpt_response, model, db.time⟩],
    time := db.time + 1 }

/-- The per-row expansion done by the loop of `get_chat_history`
(`db_utils.py` lines 64-69): `messages.extend([{"role": "human", ...},
{"role": "ai", ...}])` for each fetched row. -/
def history_messages : List ChatLog → List Message
  | [] => []
  | l :: rest =>
      ⟨"human", l.user_query⟩ :: ⟨"ai", l.gpt_response⟩ :: history_messages rest

/-- `get_chat_history` (`db_utils.py` lines 56-71): `SELECT user_query,
gpt_response FROM application_logs WHERE session_id = ? ORDER BY
created_at`, then each row expanded into a human message followed by an
ai message.  The filter preserves the table's insertion order, which is
the `created_at` order. -/
def get_chat_history (db : DBState) (session_id : String) : List Message :=
  history_messages (db.logs.filter (fun l => l.session_id == session_id))

/-- `insert_document_record` (`db_utils.py` lines 73-84): inserts a row
into `document_store` and returns `cursor.lastrowid`. -/
def insert_document_record (db : DBState) (filename : String) : DBState × Nat :=
  let file_id := db.next_doc_id
  ({ db with
      docs := db.docs ++ [⟨file_id, filename, db.time⟩],
      next_doc_id := file_id + 1,
      time := db.time + 1 },
   file_id)

/-- `delete_document_record` (`db_utils.py` lines 86-95): `DELETE FROM
document_store WHERE id = ?`, then `return True` — the flag is `True`
whenever the function returns normally, whether or not a row matched. -/
def delete_document_record (db : DBState) (file_id : Nat) : DBState × Bool :=
  ({ db with docs := db.docs.filter (fun d => d.id != file_id) }, true)

/-- A document chunk held by the Chroma vector store
(`langchain_core.documents.Document`): its text and the `file_id` entry
of its metadata dict (`none` when the key is absent). -/
structure Chunk where
  text : String
  meta_file_id : Option Nat
deriving DecidableEq, Repr

/-- The Chroma vector store state: the multiset of chunks it holds, in
insertion order. -/
structure VectorStore where
  chunks : List Chunk
deriving DecidableEq, Repr

/-- The three type-specific loaders of `load_and_split_document`
(`chroma_utils.py` lines 45-50): `PyPDFLoader`, `Docx2txtLoader`,
`UnstructuredHTMLLoader`. -/
inductive LoaderKind where
  | pdf
  | docx
  | html
deriving DecidableEq, Repr

/-- Environment for `chroma_utils.py`: the outcomes of the external
collaborators.  `loadResult` is `loader.load()` for the chosen loader
(`Except.error` models a raised exception), `splitResult` is
`text_splitter.split_documents` (likewise), `addOk` tells whether
`vectorstore.add_documents` succeeds, `getOk` whether `vectorstore.get`
succeeds, and `deleteOk` whether `vectorstore._collection.delete`
succeeds. -/
structure ChromaEnv where
  loadResult : LoaderKind → String → Except String (List Chunk)
  splitResult : List Chunk → Except String (List Chunk)
  addOk : Bool
  getOk : Bool
  deleteOk : Bool

/-- Python's `str.endswith(suf)`: `suf` is a suffix of `s`
(case-sensitive, as in `chroma_utils.py`). -/
def pyEndswith (s suf : String) : Bool :=
  decide (suf.toList <:+ s.toList)

/-- The loader dispatch chain of `load_and_split_document`
(`chroma_utils.py` lines 45-54): `if file_path.endswith('.pdf') ...
elif ... elif ... else raise ValueError`. -/
def loaderFor (file_path : String) : Option LoaderKind :=
  if pyEndswith file_path ".pdf" then some LoaderKind.pdf
  else if pyEndswith file_path ".docx" then some LoaderKind.docx
  else if pyEndswith file_path ".html" then some LoaderKind.html
  else none

/-- `load_and_split_document` (`chroma_utils.py` lines 30-59): dispatch
on the extension, raise `ValueError` for an unsupported type, otherwise
`loader.load()` then `text_splitter.split_documents(documents)`. -/
def load_and_split_document (env : ChromaEnv) (file_path : String) :
    Except String (List Chunk) :=
  match loaderFor file_path with
  | none => Except.error ("Tipo de arquivo não suportado: " ++ file_path)
  | some k =>
      match env.loadResult k file_path with
      | Except.error e => Except.error e
      | Except.ok documents => env.splitResult documents

/-- `index_document_to_chroma` (`chroma_utils.py` lines 62-92): load and
split; stamp `split.metadata['file_id'] = file_id` on every chunk;
`vectorstore.add_documents(splits)`.  Any exception is caught and turned
into `False`; `True` is returned only after `add_documents` succeeded.
The store is unchanged on every failure path (the stamping happens on
the in-memory splits only). -/
def index_document_to_chroma (env : ChromaEnv) (vs : VectorStore)
    (file_path : String) (file_id : Nat) : VectorStore × Bool :=
  match load_and_split_document env file_path with
  | Except.error _ => (vs, false)
  | Except.ok splits =>
      let stamped := splits.map (fun c => { c with meta_file_id := some file_id })
      if env.addOk then ({ chunks := vs.chunks ++ stamped }, true)
      else (vs, false)

/-- `delete_doc_from_chroma` (`chroma_utils.py` lines 95-123):
`vectorstore.get(where=...)` (for logging only), then
`vectorstore._collection.delete(where={"file_id": file_id})`; any
exception yields `False` with the store unchanged. -/
def delete_doc_from_chroma (env : ChromaEnv) (vs : VectorStore) (file_id : Nat) :
    VectorStore × Bool :=
  if env.getOk then
    if env.deleteOk then
      ({ chunks := vs.chunks.filter (fun c => c.meta_file_id != some file_id) }, true)
    else (vs, false)
  else (vs, false)

/-- Python's `str.lower()` on one character, for the ASCII range that
file extensions use. -/
def py_lower_char (c : Char) : Char :=
  if 'A' ≤ c ∧ c ≤ 'Z' then Char.ofNat (c.toNat + 32) else c

/-- Python's `str.lower()` (restricted to the ASCII case mapping, which
is all `.lower()` does on extension strings). -/
def py_lower (s : String) : String :=
  String.mk (s.toList.map py_lower_char)

/-- The extension-finding half of `os.path.splitext(filename)[1]` for a
bare filename (no directory separators): scan the characters, remember
the suffix starting at the last dot that has at least one earlier
non-dot character (leading dots, as in `.bashrc`, start no extension).
`seen` records whether a non-dot character has been passed; `best` is
the candidate extension found so far. -/
def splitext_ext_go : List Char → Bool → Option (List Char) → Option (List Char)
  | [], _, best => best
  | c :: rest, seen, best =>
      if c = '.' then
        splitext_ext_go rest seen (if seen then some (c :: rest) else best)
      else
        splitext_ext_go rest true best

/-- `os.path.splitext(filename)[1]` for a bare filename: the extension
including its dot, or `""` when there is none. -/
def splitext_ext (filename : String) : String :=
  match splitext_ext_go filename.toList false none with
  | none => ""
  | some ext => String.mk ext

/-- `allowed_extensions` (`main.py` line 84). -/
def allowed_extensions : List String := [".pdf", ".docx", ".html"]

/-- The whole application state the endpoints act on: the SQLite
database, the Chroma vector store, and the set of files currently on
disk in the temp directory (as a list of paths). -/
structure AppState where
  db : DBState
  vs : VectorStore
  tempFiles : List String
deriving DecidableEq, Repr

/-- Environment for the upload endpoint: `writeOk` tells whether
`shutil.copyfileobj` into the opened temp file succeeds, `insertOk`
whether `insert_document_record`'s SQLite calls succeed, and `chroma`
supplies the vector-store collaborators' outcomes. -/
structure UploadEnv where
  writeOk : Bool
  insertOk : Bool
  chroma : ChromaEnv

/-- Outcome of `/upload-doc` (`main.py`): HTTP 400 for a disallowed
extension, HTTP 500 for any processing failure, or success with the
new `file_id`. -/
inductive UploadResult where
  | badRequest
  | serverError
  | ok (file_id : Nat)
deriving DecidableEq, Repr

/-- `temp_file_path = f"temp_{uuid.uuid4()}_{file.filename}"`
(`main.py` line 95); `u` stands for the generated uuid text. -/
def temp_path (u filename : String) : String :=
  "temp_" ++ u ++ "_" ++ filename

/-- `os.remove(temp_file_path)` guarded by `os.path.exists`
(`main.py` lines 126-127). -/
def remove_temp (ts : List String) (p : String) : List String :=
  ts.filter (fun q => q != p)

/-- `upload_and_index_document` (`main.py` lines 70-128).  Branches, in
the order of the Python code:
* extension not in `allowed_extensions` → `HTTPException(400)` before
  any side effect;
* `open` creates the temp file, then `copyfileobj` may raise
  (`writeOk = false`): the `except` block runs without a `file_id` in
  scope (no compensating delete) and `finally` removes the temp file;
* `insert_document_record` may raise (`insertOk = false`): likewise no
  `file_id` was bound, `finally` removes the temp file;
* `index_document_to_chroma` returns `False`: the record is deleted and
  `HTTPException(500)` is raised — which the enclosing
  `except Exception` catches, deleting the record a second time
  (idempotent) and re-raising a 500; `finally` removes the temp file;
* success: the 200 response is returned and `finally` removes the temp
  file. -/
def upload_and_index_document (env : UploadEnv) (st : AppState)
    (filename u : String) : AppState × UploadResult :=
  let file_extension := py_lower (splitext_ext filename)
  if allowed_extensions.contains file_extension then
    let temp_file_path := temp_path u filename
    let st1 : AppState := ⟨st.db, st.vs, temp_file_path :: st.tempFiles⟩
    if env.writeOk then
      if env.insertOk then
        let r := insert_document_record st1.db filename
        let file_id := r.2
        let ri := index_document_to_chroma env.chroma st1.vs temp_file_path file_id
        if ri.2 then
          (⟨r.1, ri.1, remove_temp st1.tempFiles temp_file_path⟩, UploadResult.ok file_id)
        else
          let db3 := (delete_document_record r.1 file_id).1
          let db4 := (delete_document_record db3 file_id).1
          (⟨db4, ri.1, remove_temp st1.tempFiles temp_file_path⟩, UploadResult.serverError)
      else
        (⟨st1.db, st1.vs, remove_temp st1.tempFiles temp_file_path⟩, UploadResult.serverError)
    else
      (⟨st1.db, st1.vs, remove_temp st1.tempFiles temp_file_path⟩, UploadResult.serverError)
  else
    (st, UploadResult.badRequest)

/-- Outcome of `/delete-doc` (`main.py` lines 149-190): success, the 500
raised when `delete_doc_from_chroma` returns `False`, and the 500 of the
`db_delete_success == False` branch ("Excluído do Chroma, mas falha ao
excluir ... do banco de dados"). -/
inductive DeleteResult where
  | ok
  | errChroma
  | errDbAfterChroma
deriving DecidableEq, Repr

/-- `delete_document` (`main.py` lines 149-190): delete from Chroma
first; only if that reports success, delete the `DocumentRecord`; the
final catch-all `except` turns the raised `HTTPException`s into a
generic 500 without touching any state. -/
def delete_document (env : ChromaEnv) (st : AppState) (file_id : Nat) :
    AppState × DeleteResult :=
  let rc := delete_doc_from_chroma env st.vs file_id
  if rc.2 then
    let rd := delete_document_record st.db file_id
    if rd.2 then
      (⟨rd.1, rc.1, st.tempFiles⟩, DeleteResult.ok)
    else
      (⟨rd.1, rc.1, st.tempFiles⟩, DeleteResult.errDbAfterChroma)
  else
    (⟨st.db, rc.1, st.tempFiles⟩, DeleteResult.errChroma)

/-- `QueryInput` (`pydantic_models.py`): the question, the optional
session id (`none` when the field is absent; pydantic also admits an
explicit string, possibly empty), and the model name's string value. -/
structure QueryInput where
  question : String
  session_id : Option String
  model : String
deriving DecidableEq, Repr

/-- Environment for the chat endpoint: `ragInvoke model question
history` is `get_rag_chain(model).invoke({...})['answer']`
(`Except.error` models any exception from the chain), and `insertLogOk`
tells whether `insert_application_logs`'s SQLite calls succeed. -/
structure ChatEnv where
  ragInvoke : String → String → List Message → Except String String
  insertLogOk : Bool

/-- Outcome of `/chat` (`main.py` lines 25-67): the `QueryResponse`
(answer, session id, model) or the catch-all HTTP 500. -/
inductive ChatOutcome where
  | ok (answer session_id model : String)
  | serverError
deriving DecidableEq, Repr

/-- `session_id = query_input.session_id or str(uuid.uuid4())`
(`main.py` line 41): Python's `or` takes the right operand when the
left is falsy, i.e. absent (`None`) or the empty string.  `freshUuid`
stands for the `str(uuid.uuid4())` text. -/
def resolve_session_id (session_id : Option String) (freshUuid : String) : String :=
  match session_id with
  | none => freshUuid
  | some s => if s = "" then freshUuid else s

/-- `chat` (`main.py` lines 25-67): resolve the session id, fetch the
history, invoke the RAG chain, persist the turn, and return the
response; any exception maps to a generic 500 (with no partial rollback
— but the log insert either happened or did not). -/
def chat (env : ChatEnv) (st : AppState) (query_input : QueryInput)
    (freshUuid : String) : AppState × ChatOutcome :=
  let session_id := resolve_session_id query_input.session_id freshUuid
  let chat_history := get_chat_history st.db session_id
  match env.ragInvoke query_input.model query_input.question chat_history with
  | Except.error _ => (st, ChatOutcome.serverError)
  | Except.ok answer =>
      if env.insertLogOk then
        (⟨insert_application_logs st.db session_id query_input.question answer query_input.model,
          st.vs, st.tempFiles⟩,
         ChatOutcome.ok answer session_id query_input.model)
      else (st, ChatOutcome.serverError)

example : pyEndswith "temp_u_a.pdf" ".pdf" = true := by decide
example : pyEndswith "a.PDF" ".pdf" = false := by decide
example : loaderFor "x.docx" = some LoaderKind.docx := by decide
example : py_lower (splitext_ext "A.PdF") = ".pdf" := by decide
example : splitext_ext ".bashrc" = "" := by decide
example : splitext_ext "a.tar.gz" = ".gz" := by decide
example : splitext_ext "noext" = "" := by decide

/-! ## Concrete sample states and environments, used by the witnesses -/

/-- Two sample chunks, as a loader could produce them. -/
def sample_chunks : List Chunk := [⟨"alpha", none⟩, ⟨"beta", some 7⟩]

/-- A Chroma environment in which every collaborator succeeds. -/
def chroma_ok : ChromaEnv :=
  ⟨fun _ _ => Except.ok sample_chunks, fun ds => Except.ok ds, true, true, true⟩

/-- A Chroma environment whose loader raises (a faulty indexer). -/
def chroma_load_fails : ChromaEnv :=
  ⟨fun _ _ => Except.error "loader raised", fun ds => Except.ok ds, true, true, true⟩

/-- A Chroma environment whose `_collection.delete` raises. -/
def chroma_delete_fails : ChromaEnv :=
  ⟨fun _ _ => Except.ok sample_chunks, fun ds => Except.ok ds, true, true, false⟩

/-- An upload environment in which everything succeeds. -/
def env_ok : UploadEnv := ⟨true, true, chroma_ok⟩

/-- An upload environment whose indexing step fails. -/
def env_index_fails : UploadEnv := ⟨true, true, chroma_load_fails⟩

/-- The empty application state (fresh database, empty vector store). -/
def st0 : AppState := ⟨⟨[], [], 1, 0⟩, ⟨[]⟩, []⟩

/-- A populated application state: two chat turns for session `s1`, one
for `s2`, one registered document with id 1 and its chunk. -/
def st1 : AppState :=
  ⟨⟨[⟨"s1", "q1", "a1", "m", 0⟩, ⟨"s2", "qq", "aa", "m", 1⟩, ⟨"s1", "q2", "a2", "m", 2⟩],
    [⟨1, "a.pdf", 0⟩], 2, 3⟩,
   ⟨[⟨"c1", some 1⟩]⟩, []⟩

/-- A chat environment whose RAG chain answers and whose log insert
succeeds. -/
def chat_env0 : ChatEnv := ⟨fun _ q _ => Except.ok ("echo: " ++ q), true⟩

/-! ## Helper lemmas -/

/-- On a failure report, `delete_doc_from_chroma` leaves the vector
store unchanged. -/
theorem delete_doc_from_chroma_fst_of_fail (env : ChromaEnv) (vs : VectorStore) (file_id : Nat)
    (h : (delete_doc_from_chroma env vs file_id).2 = false) :
    (delete_doc_from_chroma env vs file_id).1 = vs := by
  unfold delete_doc_from_chroma at *
  cases hg : env.getOk <;> cases hd : env.deleteOk <;> simp [hg, hd] at *

/-! ## Claim C2 -/

/-- Claim C2: for every document-deletion request, the vector-index
deletion is attempted first and the `DocumentRecord` is deleted only if
it succeeded; if the vector-index deletion fails, `delete_document`
aborts with the Chroma-failure error and the whole state — in
particular the `DocumentRecord` for that `file_id` — is unchanged.
Conversely, the relational store is touched only when the vector-index
deletion reported success. -/
theorem delete_document_aborts_on_chroma_failure (env : ChromaEnv) (st : AppState)
    (file_id : Nat) :
    ((delete_doc_from_chroma env st.vs file_id).2 = false →
      delete_document env st file_id = (st, DeleteResult.errChroma)) ∧
    ((delete_document env st file_id).1.db ≠ st.db →
      (delete_doc_from_chroma env st.vs file_id).2 = true) := by
  constructor
  · intro h
    have hfst := delete_doc_from_chroma_fst_of_fail env st.vs file_id h
    simp [delete_document, h, hfst]
  · intro hne
    cases hc : (delete_doc_from_chroma env st.vs file_id).2
    · exact absurd (by simp [delete_document, hc]) hne
    · rfl

/-- Witness for C2: with a failing `_collection.delete`, deleting
document 1 from the populated state leaves the state unchanged and
reports the Chroma failure. -/
theorem delete_document_aborts_on_chroma_failure_witness :
    delete_document chroma_delete_fails st1 1 = (st1, DeleteResult.errChroma) :=
  (delete_document_aborts_on_chroma_failure chroma_delete_fails st1 1).1 (by decide)

/-! ## Claim C4 -/

/-- Claim C4: an upload whose (lower-cased `os.path.splitext`) extension
is outside the allow-set `{.pdf, .docx, .html}` is rejected with
HTTP 400 before any side effect: the returned state is exactly the
initial state (no temp file, no `DocumentRecord`, no indexing). -/
theorem upload_rejects_disallowed (env : UploadEnv) (st : AppState) (filename u : String)
    (h : allowed_extensions.contains (py_lower (splitext_ext filename)) = false) :
    upload_and_index_document env st filename u = (st, UploadResult.badRequest) := by
  have hmem : py_lower (splitext_ext filename) ∉ allowed_extensions := by
    simpa using h
  simp [upload_and_index_document, hmem]

/-- Witness for C4: uploading `notes.txt` is rejected and the empty
state is returned untouched. -/
theorem upload_rejects_disallowed_witness :
    upload_and_index_document env_ok st0 "notes.txt" "u0" = (st0, UploadResult.badRequest) :=
  upload_rejects_disallowed env_ok st0 "notes.txt" "u0" (by decide)

/-! ## Claim C8 -/

/-- Claim C8: `index_document_to_chroma` never raises — it is a total
function into `VectorStore × Bool` — and its flag is `true` exactly when
the whole indexing succeeded: loading-and-splitting returned chunks and
the submission to the vector store went through.  On any failure in
loading, splitting, or submission the flag is `false`. -/
theorem index_document_to_chroma_success_iff (env : ChromaEnv) (vs : VectorStore)
    (file_path : String) (file_id : Nat) :
    (index_document_to_chroma env vs file_path file_id).2 = true ↔
      (∃ cs, load_and_split_document env file_path = Except.ok cs) ∧ env.addOk = true := by
  unfold index_document_to_chroma
  cases h : load_and_split_document env file_path with
  | error e => simp [h]
  | ok splits =>
      cases ha : env.addOk <;> simp [h, ha]

/-- Witness for C8: with a raising loader the flag is `false` on the
empty store. -/
theorem index_document_to_chroma_success_iff_witness :
    ((index_document_to_chroma chroma_load_fails (VectorStore.mk []) "a.pdf" 1).2 = true ↔
      (∃ cs, load_and_split_document chroma_load_fails "a.pdf" = Except.ok cs) ∧
        chroma_load_fails.addOk = true) :=
  index_document_to_chroma_success_iff chroma_load_fails (VectorStore.mk []) "a.pdf" 1

/-! ## Claim C9 -/

/-- Claim C9: `delete_document_record` returns `true` whenever it
returns normally — `return True` is its only return — so the
`/delete-doc` branch that reports "deleted from Chroma but record
deletion failed" (`DeleteResult.errDbAfterChroma`) is unreachable when
the store operations return normally: the endpoint's outcome is always
success or the Chroma-failure error. -/
theorem delete_document_record_always_true (db : DBState) (file_id : Nat)
    (env : ChromaEnv) (st : AppState) :
    (delete_document_record db file_id).2 = true ∧
    ((delete_document env st file_id).2 = DeleteResult.ok ∨
     (delete_document env st file_id).2 = DeleteResult.errChroma) := by
  constructor
  · rfl
  · unfold delete_document
    cases hc : (delete_doc_from_chroma env st.vs file_id).2 <;>
      simp [delete_document_record, hc]

/-- Witness for C9: deleting document 1 from the populated state with
all collaborators healthy succeeds outright. -/
theorem delete_document_record_always_true_witness :
    (delete_document_record st1.db 1).2 = true ∧
    ((delete_document chroma_ok st1 1).2 = DeleteResult.ok ∨
     (delete_document chroma_ok st1 1).2 = DeleteResult.errChroma) :=
  delete_document_record_always_true st1.db 1 chroma_ok st1

/-! ## Claim C3 -/

/-- The length of the expanded history is twice the number of turns. -/
theorem history_messages_length (ts : List ChatLog) :
    (history_messages ts).length = 2 * ts.length := by
  induction ts with
  | nil => rfl
  | cons l rest ih =>
      simp [history_messages, ih]
      omega

/-- The message at even position `2 * i` of the expanded history is the
human message of turn `i`. -/
theorem history_messages_even (ts : List ChatLog) :
    ∀ i, (history_messages ts)[2 * i]? =
      (ts[i]?).map (fun l => (⟨"human", l.user_query⟩ : Message)) := by
  induction ts with
  | nil => intro i; simp [history_messages]
  | cons l rest ih =>
      intro i
      cases i with
      | zero => simp [history_messages]
      | succ j =>
          have h2 : 2 * (j + 1) = 2 * j + 1 + 1 := by omega
          rw [h2]
          simp [history_messages, ih j]

/-- The message at odd position `2 * i + 1` of the expanded history is
the ai message of turn `i`. -/
theorem history_messages_odd (ts : List ChatLog) :
    ∀ i, (history_messages ts)[2 * i + 1]? =
      (ts[i]?).map (fun l => (⟨"ai", l.gpt_response⟩ : Message)) := by
  induction ts with
  | nil => intro i; simp [history_messages]
  | cons l rest ih =>
      intro i
      cases i with
      | zero => simp [history_messages]
      | succ j =>
          have h2 : 2 * (j + 1) + 1 = 2 * j + 1 + 1 + 1 := by omega
          rw [h2]
          simp [history_messages, ih j]

/-- Claim C3: for a session with `N` recorded turns, `get_chat_history`
returns exactly `2 * N` messages; the message at position `2 * i` is the
human message of the `i`-th turn (in creation order) and the message at
position `2 * i + 1` is its ai message; for a session id with no
recorded turns the result is the empty list, not an error. -/
theorem get_chat_history_pairs (db : DBState) (sid : String) :
    (get_chat_history db sid).length =
      2 * (db.logs.filter (fun l => l.session_id == sid)).length ∧
    (∀ i, (get_chat_history db sid)[2 * i]? =
      ((db.logs.filter (fun l => l.session_id == sid))[i]?).map
        (fun l => (⟨"human", l.user_query⟩ : Message))) ∧
    (∀ i, (get_chat_history db sid)[2 * i + 1]? =
      ((db.logs.filter (fun l => l.session_id == sid))[i]?).map
        (fun l => (⟨"ai", l.gpt_response⟩ : Message))) ∧
    ((∀ l ∈ db.logs, l.session_id ≠ sid) → get_chat_history db sid = []) := by
  refine ⟨history_messages_length _, history_messages_even _, history_messages_odd _, ?_⟩
  intro h
  have hnil : db.logs.filter (fun l => l.session_id == sid) = [] := by
    rw [List.filter_eq_nil_iff]
    intro l hl
    simpa using h l hl
  rw [get_chat_history, hnil]
  rfl

/-- Witness for C3: in the populated state, session `s1` has two turns
and yields the four messages in order, and an unknown session yields the
empty list. -/
theorem get_chat_history_pairs_witness :
    (get_chat_history st1.db "s1").length = 2 * 2 ∧
    (get_chat_history st1.db "s1")[0]? = some ⟨"human", "q1"⟩ ∧
    (get_chat_history st1.db "s1")[3]? = some ⟨"ai", "a2"⟩ ∧
    get_chat_history st1.db "nosuch" = [] := by
  refine ⟨by decide, by decide, by decide,
    (get_chat_history_pairs st1.db "nosuch").2.2.2 (by decide)⟩

/-! ## Claim C5 -/

/-- `os.remove(p)` leaves no file named `p`. -/
theorem contains_remove_temp_self (ts : List String) (p : String) :
    (remove_temp ts p).contains p = false := by
  have hmem : p ∉ remove_temp ts p := by
    simp [remove_temp, List.mem_filter]
  cases h : (remove_temp ts p).contains p
  · rfl
  · exact absurd (by simpa using h) hmem

/-- Claim C5: for every upload of an allowed file type, the temporary
file created for the uploaded bytes is gone from disk when the call
returns, on every exit path — success, indexing failure, or an
exception while writing the file or inserting the record (the
quantification over `env` covers all of them, via the `finally`
block). -/
theorem upload_removes_temp_file (env : UploadEnv) (st : AppState) (filename u : String)
    (hext : allowed_extensions.contains (py_lower (splitext_ext filename)) = true) :
    ((upload_and_index_document env st filename u).1.tempFiles.contains
      (temp_path u filename)) = false := by
  have hmem : py_lower (splitext_ext filename) ∈ allowed_extensions := by
    simpa using hext
  unfold upload_and_index_document
  rw [if_pos (by simpa using hmem)]
  cases hw : env.writeOk <;> cases hi : env.insertOk <;>
    simp only [hw, hi, Bool.false_eq_true, if_false, if_true] <;>
    try exact contains_remove_temp_self _ _
  cases hidx : (index_document_to_chroma env.chroma st.vs (temp_path u filename)
      (insert_document_record st.db filename).2).2 <;>
    simp [hidx, remove_temp, List.mem_filter]

/-- Witness for C5: after a fully successful upload of `a.pdf` into the
empty state, its temporary file is gone. -/
theorem upload_removes_temp_file_witness :
    ((upload_and_index_document env_ok st0 "a.pdf" "u0").1.tempFiles.contains
      (temp_path "u0" "a.pdf")) = false :=
  upload_removes_temp_file env_ok st0 "a.pdf" "u0" (by decide)

/-! ## Claim C1 -/

/-- A `DELETE ... WHERE id = file_id` leaves a table whose rows all have
other ids untouched. -/
theorem filter_ne_id_self (ds : List Doc) (file_id : Nat)
    (h : ∀ d ∈ ds, d.id ≠ file_id) :
    ds.filter (fun d => d.id != file_id) = ds := by
  rw [List.filter_eq_self]
  intro d hd
  simpa using h d hd

/-- Claim C1: on an allowed upload whose indexing reports failure after
the `DocumentRecord` was created, the endpoint deletes that just-created
record before returning and reports failure (HTTP 500): given the
well-formedness invariant that all existing record ids are below the
AUTOINCREMENT counter, the final document table equals the initial one,
so no record of this upload remains. -/
theorem upload_compensates_on_index_failure (env : UploadEnv) (st : AppState)
    (filename u : String)
    (hext : allowed_extensions.contains (py_lower (splitext_ext filename)) = true)
    (hw : env.writeOk = true) (hins : env.insertOk = true)
    (hfail : (index_document_to_chroma env.chroma st.vs (temp_path u filename)
      st.db.next_doc_id).2 = false)
    (hwf : ∀ d ∈ st.db.docs, d.id < st.db.next_doc_id) :
    (upload_and_index_document env st filename u).2 = UploadResult.serverError ∧
    (upload_and_index_document env st filename u).1.db.docs = st.db.docs := by
  have hmem : py_lower (splitext_ext filename) ∈ allowed_extensions := by
    simpa using hext
  have hne : ∀ d ∈ st.db.docs, d.id ≠ st.db.next_doc_id := by
    intro d hd
    exact Nat.ne_of_lt (hwf d hd)
  unfold upload_and_index_document
  rw [if_pos (by simpa using hmem), if_pos hw, if_pos hins]
  simp [insert_document_record, delete_document_record, hfail, List.filter_append,
    filter_ne_id_self st.db.docs _ hne]

/-- Witness for C1: a faulty indexer on uploading `a.pdf` into the empty
state reports failure and leaves the (empty) document table as it
was. -/
theorem upload_compensates_on_index_failure_witness :
    (upload_and_index_document env_index_fails st0 "a.pdf" "u0").2 =
      UploadResult.serverError ∧
    (upload_and_index_document env_index_fails st0 "a.pdf" "u0").1.db.docs =
      st0.db.docs :=
  upload_compensates_on_index_failure env_index_fails st0 "a.pdf" "u0"
    (by decide) rfl rfl (by decide) (by decide)

/-! ## Claim C7 -/

/-- Every chunk that `index_document_to_chroma` adds to the vector
store carries `file_id` in its metadata: the store grows by a batch of
chunks all stamped with the `file_id` argument (empty on failure). -/
theorem index_chunks_stamped (env : ChromaEnv) (vs : VectorStore)
    (file_path : String) (file_id : Nat) :
    ∃ new, (index_document_to_chroma env vs file_path file_id).1.chunks =
        vs.chunks ++ new ∧
      ∀ c ∈ new, c.meta_file_id = some file_id := by
  unfold index_document_to_chroma
  cases h : load_and_split_document env file_path with
  | error e => exact ⟨[], by simp, by simp⟩
  | ok splits =>
      cases ha : env.addOk
      · exact ⟨[], by simp [ha], by simp⟩
      · refine ⟨splits.map (fun c => { c with meta_file_id := some file_id }), by simp [ha], ?_⟩
        intro c hc
        rw [List.mem_map] at hc
        obtain ⟨a, _, rfl⟩ := hc
        rfl

/-- Claim C7: every chunk submitted to the vector index by
`index_document_to_chroma` carries metadata whose `file_id` equals the
`file_id` argument; and the upload orchestrator passes as that argument
exactly the id `insert_document_record` returned (the AUTOINCREMENT
counter), under which the new `DocumentRecord` is stored — the linkage
invariant between the relational store and the vector index. -/
theorem index_stamps_file_id :
    (∀ env vs file_path file_id, ∃ new,
      (index_document_to_chroma env vs file_path file_id).1.chunks =
          vs.chunks ++ new ∧
        ∀ c ∈ new, c.meta_file_id = some file_id) ∧
    (∀ env st filename u file_id,
      (upload_and_index_document env st filename u).2 = UploadResult.ok file_id →
      file_id = st.db.next_doc_id ∧
      (∃ d ∈ (upload_and_index_document env st filename u).1.db.docs,
        d.id = file_id) ∧
      (∃ new, (upload_and_index_document env st filename u).1.vs.chunks =
          st.vs.chunks ++ new ∧
        ∀ c ∈ new, c.meta_file_id = some file_id)) := by
  refine ⟨fun env vs file_path file_id => index_chunks_stamped env vs file_path file_id, ?_⟩
  intro env st filename u file_id h
  unfold upload_and_index_document at *
  by_cases hext : allowed_extensions.contains (py_lower (splitext_ext filename)) = true
  case neg =>
    rw [if_neg hext] at h
    exact absurd h (by simp)
  case pos =>
    rw [if_pos hext] at h ⊢
    cases hw : env.writeOk with
    | false => simp [hw] at h
    | true =>
      cases hins : env.insertOk with
      | false => simp [hw, hins] at h
      | true =>
        by_cases hidx : (index_document_to_chroma env.chroma st.vs (temp_path u filename)
            st.db.next_doc_id).2 = true
        · simp [hw, hins, hidx, insert_document_record] at h ⊢
          have hfid : file_id = st.db.next_doc_id := by omega
          subst hfid
          refine ⟨rfl, ?_, ?_⟩
          · exact ⟨⟨st.db.next_doc_id, filename, st.db.time⟩, by simp, rfl⟩
          · exact index_chunks_stamped env.chroma st.vs (temp_path u filename) _
        · have hidx2 : (index_document_to_chroma env.chroma st.vs (temp_path u filename)
              st.db.next_doc_id).2 = false := by
            simpa using hidx
          simp [hw, hins, hidx2, insert_document_record] at h

/-- Witness for C7: a fully successful upload of `a.pdf` into the empty
state yields file id 1, stores the record under id 1, and every chunk
added to the store is stamped with file id 1. -/
theorem index_stamps_file_id_witness :
    (upload_and_index_document env_ok st0 "a.pdf" "u0").2 = UploadResult.ok 1 ∧
    (∃ d ∈ (upload_and_index_document env_ok st0 "a.pdf" "u0").1.db.docs,
      d.id = 1) ∧
    (∃ new, (upload_and_index_document env_ok st0 "a.pdf" "u0").1.vs.chunks =
        st0.vs.chunks ++ new ∧
      ∀ c ∈ new, c.meta_file_id = some 1) := by
  refine ⟨by decide, ?_⟩
  have h := index_stamps_file_id.2 env_ok st0 "a.pdf" "u0" 1 (by decide)
  exact ⟨h.2.1, h.2.2⟩

/-! ## Claim C6 -/

/-- A nonempty suffix determines the last element of the whole list. -/
theorem getLast?_of_isSuffix {s l : List Char} (h : s <:+ l) (hs : s ≠ []) :
    l.getLast? = s.getLast? := by
  obtain ⟨t, rfl⟩ := h
  exact List.getLast?_append_of_ne_nil t hs

/-- Two nonempty suffix candidates with different last characters
cannot both be suffixes of the same path. -/
theorem suffix_exclusive {s1 s2 l : List Char} (h1 : s1 <:+ l) (h2 : s2 <:+ l)
    (hs1 : s1 ≠ []) (hs2 : s2 ≠ []) (hne : s1.getLast? ≠ s2.getLast?) : False :=
  hne ((getLast?_of_isSuffix h1 hs1).symm.trans (getLast?_of_isSuffix h2 hs2))

/-- `pyEndswith` unfolded to the suffix relation. -/
theorem pyEndswith_iff (s suf : String) :
    pyEndswith s suf = true ↔ suf.toList <:+ s.toList := by
  simp [pyEndswith]

/-- A path ending in `.docx` does not end in `.pdf` (`x` versus `f`). -/
theorem not_pdf_of_docx (p : String) (h : pyEndswith p ".docx" = true) :
    pyEndswith p ".pdf" = false := by
  cases hp : pyEndswith p ".pdf"
  · rfl
  · exact (suffix_exclusive ((pyEndswith_iff p ".pdf").mp hp)
      ((pyEndswith_iff p ".docx").mp h) (by decide) (by decide) (by decide)).elim

/-- A path ending in `.html` does not end in `.pdf` (`l` versus `f`). -/
theorem not_pdf_of_html (p : String) (h : pyEndswith p ".html" = true) :
    pyEndswith p ".pdf" = false := by
  cases hp : pyEndswith p ".pdf"
  · rfl
  · exact (suffix_exclusive ((pyEndswith_iff p ".pdf").mp hp)
      ((pyEndswith_iff p ".html").mp h) (by decide) (by decide) (by decide)).elim

/-- A path ending in `.html` does not end in `.docx` (`l` versus `x`). -/
theorem not_docx_of_html (p : String) (h : pyEndswith p ".html" = true) :
    pyEndswith p ".docx" = false := by
  cases hp : pyEndswith p ".docx"
  · rfl
  · exact (suffix_exclusive ((pyEndswith_iff p ".docx").mp hp)
      ((pyEndswith_iff p ".html").mp h) (by decide) (by decide) (by decide)).elim

/-- Claim C6: `load_and_split_document` dispatches on the file
extension to exactly one type-specific loader — the three supported
suffixes are mutually exclusive, so a `.pdf` path goes to the PDF
loader, a `.docx` path to the DOCX loader, and a `.html` path to the
HTML loader — and for a path with none of the three supported suffixes
no loader is chosen and the call fails with the unsupported-file-type
`ValueError`. -/
theorem load_and_split_document_dispatch (env : ChromaEnv) (file_path : String) :
    (pyEndswith file_path ".pdf" = true → loaderFor file_path = some LoaderKind.pdf) ∧
    (pyEndswith file_path ".docx" = true → loaderFor file_path = some LoaderKind.docx) ∧
    (pyEndswith file_path ".html" = true → loaderFor file_path = some LoaderKind.html) ∧
    ((pyEndswith file_path ".pdf" || pyEndswith file_path ".docx" ||
        pyEndswith file_path ".html") = false →
      loaderFor file_path = none ∧
      load_and_split_document env file_path =
        Except.error ("Tipo de arquivo não suportado: " ++ file_path)) := by
  refine ⟨?_, ?_, ?_, ?_⟩
  · intro h
    simp [loaderFor, h]
  · intro h
    simp [loaderFor, h, not_pdf_of_docx file_path h]
  · intro h
    simp [loaderFor, h, not_pdf_of_html file_path h, not_docx_of_html file_path h]
  · intro h
    simp only [Bool.or_eq_false_iff] at h
    obtain ⟨⟨h1, h2⟩, h3⟩ := h
    have hl : loaderFor file_path = none := by
      simp [loaderFor, h1, h2, h3]
    exact ⟨hl, by simp [load_and_split_document, hl]⟩

/-- Witness for C6: `x.docx` is dispatched to the DOCX loader, and
`x.txt` fails with the unsupported-file-type error. -/
theorem load_and_split_document_dispatch_witness :
    loaderFor "x.docx" = some LoaderKind.docx ∧
    load_and_split_document chroma_ok "x.txt" =
      Except.error ("Tipo de arquivo não suportado: " ++ "x.txt") :=
  ⟨(load_and_split_document_dispatch chroma_ok "x.docx").2.1 (by decide),
   ((load_and_split_document_dispatch chroma_ok "x.txt").2.2.2 (by decide)).2⟩

/-! ## Claim C10 -/

/-- If `/chat` returns a success response, its `session_id` is the
resolved one. -/
theorem chat_ok_session_id (env : ChatEnv) (st : AppState) (query_input : QueryInput)
    (freshUuid answer sid model : String)
    (h : (chat env st query_input freshUuid).2 = ChatOutcome.ok answer sid model) :
    sid = resolve_session_id query_input.session_id freshUuid := by
  unfold chat at h
  cases hr : env.ragInvoke query_input.model query_input.question
      (get_chat_history st.db (resolve_session_id query_input.session_id freshUuid)) with
  | error e => simp [hr] at h
  | ok ans =>
      cases hi : env.insertLogOk with
      | false => simp [hr, hi] at h
      | true =>
          simp [hr, hi] at h
          exact h.2.1.symm

/-- The resolved session id is never the empty string when the
generated uuid text is nonempty. -/
theorem resolve_session_id_ne_empty (session_id : Option String) (freshUuid : String)
    (hf : freshUuid ≠ "") : resolve_session_id session_id freshUuid ≠ "" := by
  unfold resolve_session_id
  cases session_id with
  | none => exact hf
  | some s =>
      by_cases hs : s = "" <;> simp [hs, hf]

/-- Claim C10: a chat request whose `session_id` is the empty string is
treated exactly as if the field were absent — the call is
indistinguishable from the same call with no session id, so a fresh
identifier is generated and returned — and, the generated uuid text
being nonempty, the empty string is never the `session_id` of a chat
response. -/
theorem chat_empty_session_id (env : ChatEnv) (st : AppState)
    (query_input : QueryInput) (freshUuid : String) :
    (query_input.session_id = some "" →
      chat env st query_input freshUuid =
        chat env st ⟨query_input.question, none, query_input.model⟩ freshUuid) ∧
    (freshUuid ≠ "" → ∀ answer sid model,
      (chat env st query_input freshUuid).2 = ChatOutcome.ok answer sid model →
      sid ≠ "") := by
  constructor
  · intro h
    simp [chat, resolve_session_id, h]
  · intro hf answer sid model h
    rw [chat_ok_session_id env st query_input freshUuid answer sid model h]
    exact resolve_session_id_ne_empty query_input.session_id freshUuid hf

/-- Witness for C10: a request with `session_id = ""` behaves as the
same request with the field absent and returns the fresh uuid text. -/
theorem chat_empty_session_id_witness :
    chat chat_env0 st0 ⟨"hello", some "", "gemini-1.5-flash"⟩ "uuid-1" =
      chat chat_env0 st0 ⟨"hello", none, "gemini-1.5-flash"⟩ "uuid-1" ∧
    (chat chat_env0 st0 ⟨"hello", some "", "gemini-1.5-flash"⟩ "uuid-1").2 =
      ChatOutcome.ok "echo: hello" "uuid-1" "gemini-1.5-flash" :=
  ⟨(chat_empty_session_id chat_env0 st0 ⟨"hello", some "", "gemini-1.5-flash"⟩ "uuid-1").1 rfl,
   by decide⟩
